import Mathlib

/-!
Verification of the novasql page-storage core.

The file models the two core components of the repository:

* `Pager` (src/page.rs): owns the backing file (modelled as the list of
  bytes on disk), a configured `page_size` and a `page_count`, and performs
  offset-based whole-page reads and writes.
* `Database` (src/database.rs): wraps one `Pager` together with a boolean
  `closed` flag and translates I/O failures into `DatabaseError`.

Rust conventions mapped into the shallow embedding:

* bytes are `Nat` (the programs never compute with byte values, only move
  them), the file content is a `List Nat`;
* mutating methods (`&mut self` / lock-guarded interior mutation) become
  state-passing functions returning `result × new-state`; on an error path
  the input state is returned unchanged, exactly as the Rust code leaves it;
* `std::io::Error` values are collapsed to the kinds the code can produce;
* a Rust panic (here: the unchecked division by zero in `Pager::new` when
  `page_size = 0`) is modelled as `Option.none`; a normal return is `some`.
-/

namespace NovaSql

/-- Default page size, `8 * 1024` bytes (`PAGE_SIZE` in src/page.rs). -/
def PAGE_SIZE : Nat := 8 * 1024

/-- A single page of data: an owned byte buffer (`Page` in src/page.rs). -/
structure Page where
  data : List Nat
deriving DecidableEq, Repr

/-- The I/O error kinds the code can produce or propagate:
`unexpectedEof` from `read_exact` short reads, `invalidInput` from the
`write_page` size check, `osError` for any other platform failure
(e.g. a failed open). -/
inductive IoError where
  | unexpectedEof
  | invalidInput
  | osError
deriving DecidableEq, Repr

/-- `Pager` (src/page.rs): backing file content, configured page size and
current page count. The Rust `Mutex<File>` holds only the OS handle; the
observable state it guards is the file content, carried here in `file`. -/
structure Pager where
  file : List Nat
  page_size : Nat
  page_count : Nat
deriving DecidableEq, Repr

/-- `Pager::new`: opens (or creates) the file at the given path and derives
`page_count` from the file length. The outcome of the OS open is the
`openResult` input (the opened file's current bytes on success). The Rust
code computes `metadata.len() as usize / page_size` with an unchecked
division: when `page_size = 0` this panics, modelled as `none`. -/
def Pager.new (openResult : Except IoError (List Nat)) (page_size : Nat) :
    Option (Except IoError Pager) :=
  match openResult with
  | .error e => some (.error e)
  | .ok contents =>
      if page_size = 0 then
        none
      else
        some (.ok { file := contents, page_size := page_size,
                    page_count := contents.length / page_size })

/-- `Pager::get_page`: seek to `page_num * page_size` and `read_exact` a
whole page. `read_exact` fails with `UnexpectedEof` when fewer than
`page_size` bytes exist at that offset. No bound check against
`page_count` appears in the code. -/
def Pager.get_page (p : Pager) (page_num : Nat) : Except IoError Page :=
  let offset := page_num * p.page_size
  if offset + p.page_size ≤ p.file.length then
    .ok ⟨(p.file.drop offset).take p.page_size⟩
  else
    .error .unexpectedEof

/-- Effect of `seek(offset)` followed by `write_all(data)` on a file:
bytes `[offset, offset + data.length)` become `data`; seeking past the end
materializes a zero hole (sparse file semantics, read back as zeros);
bytes outside the written range are preserved. -/
def writeAt (file : List Nat) (offset : Nat) (data : List Nat) : List Nat :=
  let padded := file ++ List.replicate (offset - file.length) 0
  padded.take offset ++ data ++ padded.drop (offset + data.length)

/-- `Pager::write_page`: rejects a buffer whose length differs from
`page_size` with an `InvalidInput` error before touching the file;
otherwise writes the whole page at `page_num * page_size` and bumps
`page_count` to `page_num + 1` when `page_num >= page_count`. -/
def Pager.write_page (p : Pager) (page_num : Nat) (data : List Nat) :
    Except IoError Unit × Pager :=
  if data.length ≠ p.page_size then
    (.error .invalidInput, p)
  else
    let offset := page_num * p.page_size
    let file' := writeAt p.file offset data
    let pc' := if page_num ≥ p.page_count then page_num + 1 else p.page_count
    (.ok (), { p with file := file', page_count := pc' })

/-- The typed error set of the storage handle (`DatabaseError` in
src/database.rs). -/
inductive DatabaseError where
  | Closed
  | InvalidPageId
  | InvalidPageSize
  | Io (e : IoError)
deriving DecidableEq, Repr

/-- `Database` (src/database.rs): one `Pager` behind a readers-writer lock
plus a `closed` flag. -/
structure Database where
  pager : Pager
  closed : Bool
deriving DecidableEq, Repr

/-- `Database::new_with_config`: resolves the effective page size from the
optional configuration override (default `PAGE_SIZE`), then delegates to
`Pager::new`, wrapping its I/O failure in `DatabaseError.Io` and starting
with `closed = false`. A panic in `Pager::new` propagates (`none`). -/
def Database.new_with_config (openResult : Except IoError (List Nat))
    (cfgPageSize : Option Nat) : Option (Except DatabaseError Database) :=
  let page_size := cfgPageSize.getD PAGE_SIZE
  match Pager.new openResult page_size with
  | none => none
  | some (.error e) => some (.error (.Io e))
  | some (.ok pg) => some (.ok { pager := pg, closed := false })

/-- `Database::close`: fails with `Closed` when already closed, otherwise
flips the flag. -/
def Database.close (db : Database) : Except DatabaseError Unit × Database :=
  if db.closed then
    (.error .Closed, db)
  else
    (.ok (), { db with closed := true })

/-- `Database::get_page`: closed check, then delegate to the pager,
wrapping I/O errors in `DatabaseError.Io`. -/
def Database.get_page (db : Database) (page_id : Nat) :
    Except DatabaseError Page :=
  if db.closed then
    .error .Closed
  else
    match db.pager.get_page page_id with
    | .ok pg => .ok pg
    | .error e => .error (.Io e)

/-- `Database::write_page`: closed check, then delegate to the pager,
wrapping I/O errors in `DatabaseError.Io`. -/
def Database.write_page (db : Database) (page_id : Nat) (data : List Nat) :
    Except DatabaseError Unit × Database :=
  if db.closed then
    (.error .Closed, db)
  else
    let r := db.pager.write_page page_id data
    (match r.1 with
     | .ok () => .ok ()
     | .error e => .error (.Io e),
     { db with pager := r.2 })

/-- `Database::page_count`: direct delegation, no closed check. -/
def Database.page_count (db : Database) : Nat := db.pager.page_count

/-- `Database::page_size`: direct delegation, no closed check. -/
def Database.page_size (db : Database) : Nat := db.pager.page_size

/-! ### Helper lemmas about `writeAt` -/

/-- Dropping the length of the left part of an append yields the right part. -/
theorem drop_append_len {α : Type} (l₁ l₂ : List α) (n : Nat)
    (h : l₁.length = n) : (l₁ ++ l₂).drop n = l₂ := by
  subst h
  exact List.drop_left l₁ l₂

/-- Taking the length of the left part of an append yields the left part. -/
theorem take_append_len {α : Type} (l₁ l₂ : List α) (n : Nat)
    (h : l₁.length = n) : (l₁ ++ l₂).take n = l₁ := by
  subst h
  exact List.take_left l₁ l₂

/-- The length of the file after a write: grown to cover the written range,
never shrunk. -/
theorem writeAt_length (file : List Nat) (offset : Nat) (data : List Nat) :
    (writeAt file offset data).length = max (offset + data.length) file.length := by
  simp [writeAt]
  omega

/-- Reading back the written range returns exactly the written data. -/
theorem writeAt_readback (file : List Nat) (offset : Nat) (data : List Nat) :
    ((writeAt file offset data).drop offset).take data.length = data := by
  unfold writeAt
  have h1 : ((file ++ List.replicate (offset - file.length) 0).take offset).length
      = offset := by
    simp
    omega
  rw [List.append_assoc, drop_append_len _ _ _ h1, take_append_len _ _ _ rfl]

/-! ### Claims -/

/-- C1: for every page number `n` and byte buffer `b` of length `page_size`,
`write_page n b` succeeds and a subsequent `get_page n` on the resulting
store returns a `Page` whose bytes equal `b` (write/read round trip). -/
theorem novasql_C1_write_read_roundtrip (p : Pager) (n : Nat) (b : List Nat)
    (h : b.length = p.page_size) :
    (p.write_page n b).1 = .ok () ∧
    ((p.write_page n b).2).get_page n = .ok ⟨b⟩ := by
  have hw : p.write_page n b =
      (.ok (), { p with
          file := writeAt p.file (n * p.page_size) b,
          page_count := (if n ≥ p.page_count then n + 1 else p.page_count) }) := by
    simp [Pager.write_page, h]
  refine ⟨by rw [hw], ?_⟩
  rw [hw]
  have hlen := writeAt_length p.file (n * p.page_size) b
  have hread := writeAt_readback p.file (n * p.page_size) b
  simp only [Pager.get_page]
  rw [if_pos (by rw [hlen]; omega)]
  rw [h] at hread
  rw [hread]

/-- Witness for C1 at a concrete store: writing `[4, 2]` as page 0 of an
empty store with `page_size = 2` succeeds and reads back as `[4, 2]`. -/
theorem novasql_C1_witness :
    ([4, 2] : List Nat).length = (⟨[], 2, 0⟩ : Pager).page_size ∧
    ((⟨[], 2, 0⟩ : Pager).write_page 0 [4, 2]).1 = .ok () ∧
    (((⟨[], 2, 0⟩ : Pager).write_page 0 [4, 2]).2).get_page 0 = .ok ⟨[4, 2]⟩ :=
  ⟨rfl, novasql_C1_write_read_roundtrip ⟨[], 2, 0⟩ 0 [4, 2] rfl⟩

/-- C2: a successful `write_page n data` with `n ≥ page_count` sets
`page_count` to `n + 1`; a successful write with `n < page_count` leaves
`page_count` unchanged. -/
theorem novasql_C2_page_count_after_write (p : Pager) (n : Nat) (d : List Nat)
    (h : (p.write_page n d).1 = .ok ()) :
    (n ≥ p.page_count → ((p.write_page n d).2).page_count = n + 1) ∧
    (n < p.page_count → ((p.write_page n d).2).page_count = p.page_count) := by
  by_cases hd : d.length ≠ p.page_size
  · simp [Pager.write_page, hd] at h
  · constructor
    · intro hge
      simp [Pager.write_page, hd, hge]
    · intro hlt
      simp [Pager.write_page, hd]
      omega

/-- Witness for C2 at a concrete store: writing page 3 of a store with
`page_count = 0` succeeds and sets `page_count` to 4. -/
theorem novasql_C2_witness :
    ((⟨[], 2, 0⟩ : Pager).write_page 3 [1, 2]).1 = .ok () ∧
    (((⟨[], 2, 0⟩ : Pager).write_page 3 [1, 2]).2).page_count = 3 + 1 :=
  ⟨rfl, (novasql_C2_page_count_after_write ⟨[], 2, 0⟩ 3 [1, 2] rfl).1 (by decide)⟩

/-- C3: on an open handle, `write_page` with a buffer whose length differs
from `page_size` fails with the invalid-size validation error (the pager's
`InvalidInput` wrapped as `Io`) and leaves the whole state — in particular
`page_count` and the file content — unchanged. -/
theorem novasql_C3_invalid_size_write (db : Database) (n : Nat) (d : List Nat)
    (hopen : db.closed = false) (hlen : d.length ≠ db.pager.page_size) :
    (db.write_page n d).1 = .error (.Io .invalidInput) ∧
    (db.write_page n d).2 = db := by
  obtain ⟨pg, c⟩ := db
  simp only at hopen hlen
  subst hopen
  simp [Database.write_page, Pager.write_page, hlen]

/-- Witness for C3 at a concrete handle: a 1-byte write into an open store
with `page_size = 2` fails with `Io invalidInput` and changes nothing. -/
theorem novasql_C3_witness :
    ((⟨⟨[], 2, 0⟩, false⟩ : Database).write_page 0 [7]).1
      = .error (.Io .invalidInput) ∧
    ((⟨⟨[], 2, 0⟩, false⟩ : Database).write_page 0 [7]).2
      = (⟨⟨[], 2, 0⟩, false⟩ : Database) :=
  novasql_C3_invalid_size_write ⟨⟨[], 2, 0⟩, false⟩ 0 [7] rfl (by decide)

/-- C4: when the page region `[n * page_size, n * page_size + page_size)`
lies beyond the current file length, `get_page n` fails with the short-read
`unexpectedEof` error rather than returning a zero-filled page; and
`get_page` performs no upper-bound validation of `n` against `page_count`:
its result is independent of the `page_count` field. -/
theorem novasql_C4_short_read (p : Pager) (n : Nat)
    (h : p.file.length < n * p.page_size + p.page_size) :
    p.get_page n = .error .unexpectedEof ∧
    ∀ (q : Pager) (m pc : Nat),
      ({ q with page_count := pc } : Pager).get_page m = q.get_page m := by
  refine ⟨?_, fun q m pc => rfl⟩
  simp only [Pager.get_page]
  rw [if_neg (by omega)]

/-- Witness for C4 at a concrete store: reading page 0 of a freshly opened
store over an empty file fails with `unexpectedEof`. -/
theorem novasql_C4_witness :
    ([] : List Nat).length < 0 * 2 + 2 ∧
    (⟨[], 2, 0⟩ : Pager).get_page 0 = .error .unexpectedEof :=
  ⟨by decide, (novasql_C4_short_read ⟨[], 2, 0⟩ 0 (by decide)).1⟩

/-- C5: after a successful `close`, every `get_page` and `write_page` on
the handle fails with the `Closed` error (writing nothing), a second
`close` also fails with the `Closed` (already-closed) error, and the
`closed` flag, once set, is never reverted by any state-changing
operation. -/
theorem novasql_C5_closed_handle (db : Database) (n : Nat) (d : List Nat)
    (h : (db.close).1 = .ok ()) :
    ((db.close).2).get_page n = .error .Closed ∧
    (((db.close).2).write_page n d).1 = .error .Closed ∧
    (((db.close).2).write_page n d).2 = (db.close).2 ∧
    (((db.close).2).close).1 = .error .Closed ∧
    ∀ (db2 : Database), db2.closed = true →
      ((db2.write_page n d).2).closed = true ∧
      ((db2.close).2).closed = true := by
  have hc : db.closed = false := by
    by_cases hb : db.closed
    · simp [Database.close, hb] at h
    · simpa using hb
  have h2 : (db.close).2 = { db with closed := true } := by
    simp [Database.close, hc]
  refine ⟨?_, ?_, ?_, ?_, ?_⟩
  · rw [h2]; simp [Database.get_page]
  · rw [h2]; simp [Database.write_page]
  · rw [h2]; simp [Database.write_page]
  · rw [h2]; simp [Database.close]
  · intro db2 hdb2
    constructor
    · simp [Database.write_page, hdb2]
    · simp [Database.close, hdb2]

/-- Witness for C5 at a concrete handle: closing an open handle succeeds,
a read on the closed handle fails with `Closed`, and closing an
already-closed handle leaves its flag set. -/
theorem novasql_C5_witness :
    ((⟨⟨[], 2, 0⟩, false⟩ : Database).close).1 = .ok () ∧
    (((⟨⟨[], 2, 0⟩, false⟩ : Database).close).2).get_page 0
      = .error .Closed ∧
    (((⟨⟨[], 2, 0⟩, true⟩ : Database).close).2).closed = true :=
  ⟨rfl,
   (novasql_C5_closed_handle ⟨⟨[], 2, 0⟩, false⟩ 0 [] rfl).1,
   ((novasql_C5_closed_handle ⟨⟨[], 2, 0⟩, false⟩ 0 [] rfl).2.2.2.2
     ⟨⟨[], 2, 0⟩, true⟩ rfl).2⟩

/-- C6: the handle's `page_count` and `page_size` delegate directly to the
pager with no closed check: for every handle, open or closed, they return
the store's current values, independently of the `closed` flag (and, being
total functions, they never fail). -/
theorem novasql_C6_metadata_accessors (db : Database) :
    db.page_count = db.pager.page_count ∧
    db.page_size = db.pager.page_size ∧
    ∀ (b : Bool),
      ({ db with closed := b } : Database).page_count = db.page_count ∧
      ({ db with closed := b } : Database).page_size = db.page_size :=
  ⟨rfl, rfl, fun _ => ⟨rfl, rfl⟩⟩

/-- C7: whenever the store opens successfully, the initial `page_count` is
`floor (file_length / page_size)`, discarding trailing partial-page
bytes (`0` for an empty file). -/
theorem novasql_C7_initial_page_count (contents : List Nat) (ps : Nat)
    (p : Pager) (h : Pager.new (.ok contents) ps = some (.ok p)) :
    p.page_count = contents.length / ps := by
  by_cases hz : ps = 0
  · simp [Pager.new, hz] at h
  · simp [Pager.new, hz] at h
    rw [← h]

/-- Witness for C7: opening over a newly created empty file with
`page_size = 8192` gives `page_count = 0`; the five-byte file with
`page_size = 2` gives `page_count = 2`. -/
theorem novasql_C7_witness :
    Pager.new (.ok []) 8192 = some (.ok (⟨[], 8192, 0⟩ : Pager)) ∧
    (⟨[], 8192, 0⟩ : Pager).page_count = ([] : List Nat).length / 8192 ∧
    (⟨[1, 2, 3, 4, 5], 2, 2⟩ : Pager).page_count
      = ([1, 2, 3, 4, 5] : List Nat).length / 2 :=
  ⟨rfl,
   novasql_C7_initial_page_count [] 8192 ⟨[], 8192, 0⟩ rfl,
   novasql_C7_initial_page_count [1, 2, 3, 4, 5] 2 ⟨[1, 2, 3, 4, 5], 2, 2⟩ rfl⟩

/-- C8: `page_count` is monotonically non-decreasing: no state-changing
operation on a `Pager` or a `Database` — `write_page` (success or failure)
or `close` — ever decreases it (`get_page`, `page_count` and `page_size`
take the state immutably and cannot change it at all). -/
theorem novasql_C8_page_count_monotone (p : Pager) (db : Database)
    (n : Nat) (d : List Nat) :
    p.page_count ≤ ((p.write_page n d).2).page_count ∧
    db.page_count ≤ ((db.write_page n d).2).page_count ∧
    db.page_count ≤ ((db.close).2).page_count := by
  have hp : ∀ (q : Pager), q.page_count ≤ ((q.write_page n d).2).page_count := by
    intro q
    by_cases hd : d.length ≠ q.page_size
    · simp [Pager.write_page, hd]
    · simp [Pager.write_page, hd]
      split <;> omega
  refine ⟨hp p, ?_, ?_⟩
  · by_cases hc : db.closed
    · simp [Database.write_page, hc, Database.page_count]
    · simp [Database.write_page, hc, Database.page_count]
      exact hp db.pager
  · by_cases hc : db.closed
    · simp [Database.close, hc]
    · simp [Database.close, hc, Database.page_count]

/-- C9: the positive-page-size precondition of open is unchecked: on any
successfully opened file, `Pager::new` with `page_size = 0` — and hence
`Database::new_with_config` with a configured page-size override of 0 —
panics with a division by zero (`none` in this model) instead of returning
an error. -/
theorem novasql_C9_zero_page_size_panics (contents : List Nat) :
    Pager.new (.ok contents) 0 = none ∧
    Database.new_with_config (.ok contents) (some 0) = none := by
  constructor
  · simp [Pager.new]
  · simp [Database.new_with_config, Pager.new]

/-- C10: the error variants `InvalidPageId` and `InvalidPageSize` are dead:
every public operation of the handle either succeeds, fails with `Closed`,
or fails with an `Io`-wrapped error — open (when it returns rather than
panicking), `close`, `get_page` and `write_page` alike. -/
theorem novasql_C10_dead_error_variants (db : Database) (n : Nat)
    (d : List Nat) (o : Except IoError (List Nat)) (c : Option Nat) :
    ((∃ pg, db.get_page n = .ok pg) ∨ db.get_page n = .error .Closed ∨
      ∃ e, db.get_page n = .error (.Io e)) ∧
    ((db.write_page n d).1 = .ok () ∨ (db.write_page n d).1 = .error .Closed ∨
      ∃ e, (db.write_page n d).1 = .error (.Io e)) ∧
    ((db.close).1 = .ok () ∨ (db.close).1 = .error .Closed) ∧
    (Database.new_with_config o c = none ∨
      (∃ db2, Database.new_with_config o c = some (.ok db2)) ∨
      ∃ e, Database.new_with_config o c = some (.error (.Io e))) := by
  refine ⟨?_, ?_, ?_, ?_⟩
  · by_cases hc : db.closed
    · right; left; simp [Database.get_page, hc]
    · simp only [Database.get_page, hc, if_neg, Bool.false_eq_true,
        if_false]
      cases hg : db.pager.get_page n with
      | ok pg => exact Or.inl ⟨pg, rfl⟩
      | error e => exact Or.inr (Or.inr ⟨e, rfl⟩)
  · by_cases hc : db.closed
    · right; left; simp [Database.write_page, hc]
    · simp only [Database.write_page, hc, Bool.false_eq_true, if_false]
      cases hw : (db.pager.write_page n d).1 with
      | ok u => cases u; exact Or.inl rfl
      | error e => exact Or.inr (Or.inr ⟨e, rfl⟩)
  · by_cases hc : db.closed
    · right; simp [Database.close, hc]
    · left; simp [Database.close, hc]
  · cases o with
    | error e =>
        right; right
        exact ⟨e, by simp [Database.new_with_config, Pager.new]⟩
    | ok contents =>
        by_cases hz : c.getD PAGE_SIZE = 0
        · left; simp [Database.new_with_config, Pager.new, hz]
        · right; left
          refine ⟨⟨⟨contents, c.getD PAGE_SIZE,
            contents.length / c.getD PAGE_SIZE⟩, false⟩, ?_⟩
          simp [Database.new_with_config, Pager.new, hz]

end NovaSql
